import Mathlib

/-!
# Verification of the ptfs pass-through filesystem

A shallow embedding of the `ptfs` package (github.com/absfs/ptfs).  `ptfs`
wraps a backend object implementing one of the `absfs` capability surfaces
(`Filer`, `FileSystem`, `SymlinkFileSystem`) in a delegating wrapper whose
every method forwards to the backend unmodified, and provides one `Unwrap`
function per surface that removes exactly one wrapper layer by a concrete
type assertion (src/utils.go).

The repository ships `src/utils.go` (the three unwrap functions), tests and
a readme; the file declaring the wrapper structs' methods and the three
constructors is not among the shipped sources, so those parts are modelled
from the specification (each such definition carries a doc comment starting
`Modelled from the spec:`).  The concrete storage backends (e.g. memfs) are
external collaborators; where a claim depends on the behaviour a conforming
backend must exhibit, that behaviour is modelled from the specification's
backend contract.
-/

namespace Ptfs

/-! ## Dynamic values and the unwrap functions (src/utils.go)

Go values carried behind an `absfs` interface are modelled as an inductive
type: a backend object (identified by a number standing for its reference
identity), or one of the three concrete ptfs wrapper structs, each holding
the single reference stored in its field (`fs` for `*Filer` and
`*FileSystem`, `sfs` for `*SymlinkFileSystem`).  Equality of `FSValue`
models Go reference identity; a Go type assertion to a concrete wrapper
type is a match on the corresponding constructor. -/

inductive FSValue : Type where
  | backend (id : Nat) : FSValue
  | ptFiler (fs : FSValue) : FSValue
  | ptFileSystem (fs : FSValue) : FSValue
  | ptSymlinkFS (sfs : FSValue) : FSValue
deriving DecidableEq, Repr

/-- Embeds `UnwrapFiler` from src/utils.go: if the argument's concrete type
is `*ptfs.Filer` return its `fs` field, otherwise return the argument
unmodified. -/
def UnwrapFiler : FSValue → FSValue
  | FSValue.ptFiler fs => fs
  | fs => fs

/-- Embeds `UnwrapFS` from src/utils.go: if the argument's concrete type is
`*ptfs.FileSystem` return its `fs` field, otherwise return the argument
unmodified. -/
def UnwrapFS : FSValue → FSValue
  | FSValue.ptFileSystem fs => fs
  | fs => fs

/-- Embeds `UnwrapSymlinkFS` from src/utils.go: if the argument's concrete
type is `*ptfs.SymlinkFileSystem` return its `sfs` field, otherwise return
the argument unmodified. -/
def UnwrapSymlinkFS : FSValue → FSValue
  | FSValue.ptSymlinkFS sfs => sfs
  | fs => fs

/-- Go type assertion to the backend's concrete type (e.g.
`v.(*memfs.FileSystem)`): succeeds exactly when the dynamic value is the
backend object itself, not a wrapper. -/
def isBackend : FSValue → Bool
  | FSValue.backend _ => true
  | _ => false

/-- Go type assertion `v.(*ptfs.Filer)` viewed as a Boolean test. -/
def isPtFiler : FSValue → Bool
  | FSValue.ptFiler _ => true
  | _ => false

/-- Go type assertion `v.(*ptfs.FileSystem)` viewed as a Boolean test. -/
def isPtFileSystem : FSValue → Bool
  | FSValue.ptFileSystem _ => true
  | _ => false

/-- Go type assertion `v.(*ptfs.SymlinkFileSystem)` viewed as a Boolean
test. -/
def isPtSymlinkFS : FSValue → Bool
  | FSValue.ptSymlinkFS _ => true
  | _ => false

/-- Construction failure: the only failure mode of the constructors. -/
inductive ConstructError : Type where
  | nilBackend : ConstructError
deriving DecidableEq, Repr

/-- Modelled from the spec: `NewFiler` (the file declaring the constructors
is not among the shipped sources).  §4.4(a)/§6: constructed from exactly one
non-null backend reference; construction fails only if the backend is
null, never based on backend content.  A Go `nil` interface argument is
modelled as `none`. -/
def NewFiler : Option FSValue → Except ConstructError FSValue
  | none => Except.error ConstructError.nilBackend
  | some b => Except.ok (FSValue.ptFiler b)

/-- Modelled from the spec: `NewFS`, as for `NewFiler` (§4.4(a)/§6). -/
def NewFS : Option FSValue → Except ConstructError FSValue
  | none => Except.error ConstructError.nilBackend
  | some b => Except.ok (FSValue.ptFileSystem b)

/-- Modelled from the spec: `NewSymlinkFS`, as for `NewFiler`
(§4.4(a)/§6). -/
def NewSymlinkFS : Option FSValue → Except ConstructError FSValue
  | none => Except.error ConstructError.nilBackend
  | some b => Except.ok (FSValue.ptSymlinkFS b)

/-- Wraps a value in `n` nested `*ptfs.SymlinkFileSystem` wrapper layers. -/
def wrapSymlinkN : Nat → FSValue → FSValue
  | 0, v => v
  | n + 1, v => FSValue.ptSymlinkFS (wrapSymlinkN n v)

/-! ## Capability surfaces as operation records

The `absfs` interfaces are modelled as records of operations over an
abstract backend state `σ`.  A Go method call `b.Op(args)` that may mutate
the backend and return a value is modelled as a function
`σ → args → Except FsError (result × σ)`; metadata queries return their
result without a new state; reporters (`Separator`, `TempDir`) are
backend-constant.  Open-file handles are modelled by a numeric handle id. -/

/-- The error kinds of §7, as surfaced by a backend. -/
inductive FsError : Type where
  | notFound : FsError
  | alreadyExists : FsError
  | isADirectory : FsError
  | notADirectory : FsError
  | directoryNotEmpty : FsError
  | notASymlink : FsError
  | permissionDenied : FsError
  | notSupported : FsError
  | invalidArgument : FsError
  | tooManyLinks : FsError
deriving DecidableEq, Repr

/-- The file metadata of §3: name (base component), size, type bits
(directory / symlink), permission bits. -/
structure FileInfo : Type where
  name : String
  size : Int
  isDir : Bool
  isSymlink : Bool
  perm : Nat
deriving DecidableEq, Repr

/-- The `absfs.Filer` surface (§4.1) over backend state `σ`. -/
structure FilerOps (σ : Type) : Type where
  openFile : σ → String → Nat → Nat → Except FsError (Nat × σ)
  mkdir : σ → String → Nat → Except FsError σ
  remove : σ → String → Except FsError σ
  rename : σ → String → String → Except FsError σ
  stat : σ → String → Except FsError FileInfo
  chmod : σ → String → Nat → Except FsError σ
  chtimes : σ → String → Int → Int → Except FsError σ
  chown : σ → String → Int → Int → Except FsError σ

/-- The `absfs.FileSystem` surface (§4.2): a `Filer` plus working-directory
state, reporters and convenience operations. -/
structure FileSystemOps (σ : Type) extends FilerOps σ : Type where
  separator : Char
  listSeparator : Char
  chdir : σ → String → Except FsError σ
  getwd : σ → Except FsError String
  tempDir : String
  openRO : σ → String → Except FsError (Nat × σ)
  create : σ → String → Except FsError (Nat × σ)
  mkdirAll : σ → String → Nat → Except FsError σ
  removeAll : σ → String → Except FsError σ
  truncate : σ → String → Int → Except FsError σ

/-- The `absfs.SymlinkFileSystem` surface (§4.3): a `FileSystem` plus
symlink-aware operations. -/
structure SymlinkOps (σ : Type) extends FileSystemOps σ : Type where
  lstat : σ → String → Except FsError FileInfo
  lchown : σ → String → Int → Int → Except FsError σ
  readlink : σ → String → Except FsError String
  symlink : σ → String → String → Except FsError σ

/-- Modelled from the spec: the forwarding methods of `ptfs.Filer` (the
file declaring the wrapper methods is not among the shipped sources).
§4.4(b): every operation is forwarded to the backend with identical
arguments and the backend's result and error are returned unmodified, with
zero added validation, transformation, retry, or caching. -/
def wrapFilerOps {σ : Type} (b : FilerOps σ) : FilerOps σ where
  openFile := b.openFile
  mkdir := b.mkdir
  remove := b.remove
  rename := b.rename
  stat := b.stat
  chmod := b.chmod
  chtimes := b.chtimes
  chown := b.chown

/-- Modelled from the spec: the forwarding methods of `ptfs.FileSystem`,
as for `wrapFilerOps` (§4.4(b)). -/
def wrapFileSystemOps {σ : Type} (b : FileSystemOps σ) : FileSystemOps σ where
  openFile := b.openFile
  mkdir := b.mkdir
  remove := b.remove
  rename := b.rename
  stat := b.stat
  chmod := b.chmod
  chtimes := b.chtimes
  chown := b.chown
  separator := b.separator
  listSeparator := b.listSeparator
  chdir := b.chdir
  getwd := b.getwd
  tempDir := b.tempDir
  openRO := b.openRO
  create := b.create
  mkdirAll := b.mkdirAll
  removeAll := b.removeAll
  truncate := b.truncate

/-- Modelled from the spec: the forwarding methods of
`ptfs.SymlinkFileSystem`, as for `wrapFilerOps` (§4.4(b)). -/
def wrapSymlinkOps {σ : Type} (b : SymlinkOps σ) : SymlinkOps σ where
  openFile := b.openFile
  mkdir := b.mkdir
  remove := b.remove
  rename := b.rename
  stat := b.stat
  chmod := b.chmod
  chtimes := b.chtimes
  chown := b.chown
  separator := b.separator
  listSeparator := b.listSeparator
  chdir := b.chdir
  getwd := b.getwd
  tempDir := b.tempDir
  openRO := b.openRO
  create := b.create
  mkdirAll := b.mkdirAll
  removeAll := b.removeAll
  truncate := b.truncate
  lstat := b.lstat
  lchown := b.lchown
  readlink := b.readlink
  symlink := b.symlink

/-! ## A conforming backend, modelled from the specification

The concrete storage backends (memfs, osfs) are external collaborators and
not part of this repository; the spec's §3, §4.1-§4.3 and §7 state the
contract any conforming backend must satisfy.  The following state machine
is modelled from those sections: a hierarchical namespace keyed by absolute
path components, plus instance-scoped working-directory state initialised
to the namespace root. -/

/-- A node of the namespace: a regular file (size and permission bits), a
directory, or a symlink recording its target path. -/
inductive Node : Type where
  | file (size : Int) (perm : Nat) : Node
  | dir (perm : Nat) : Node
  | symlink (target : String) : Node
deriving DecidableEq, Repr

/-- Backend state: namespace entries keyed by absolute path component
lists (the root is `[]`), and the instance-scoped working directory. -/
structure FState : Type where
  entries : List (List String × Node)
  cwd : String
deriving DecidableEq, Repr

/-- Splits an absolute path string into its components, dropping empty
components (`"/a//b" ↦ ["a", "b"]`, `"/" ↦ []`). -/
def splitPathAux : List Char → List Char → List String
  | [], acc => if acc.isEmpty then [] else [String.mk acc.reverse]
  | c :: rest, acc =>
    if c = '/' then
      if acc.isEmpty then splitPathAux rest []
      else String.mk acc.reverse :: splitPathAux rest []
    else splitPathAux rest (c :: acc)

/-- Path components of a path string. -/
def splitPath (p : String) : List String := splitPathAux p.toList []

/-- The base (final) component of a path, `"/"` for the root. -/
def baseOf (c : List String) : String := c.getLast? |>.getD "/"

/-- Looks a component list up in the namespace. -/
def FState.find (s : FState) (c : List String) : Option Node :=
  (s.entries.find? (fun e => e.fst == c)).map (fun e => e.snd)

/-- Inserts (or replaces) the node at a key; the working directory is
untouched. -/
def FState.insert (s : FState) (c : List String) (n : Node) : FState :=
  { s with entries := (c, n) :: s.entries.filter (fun e => !(e.fst == c)) }

/-- Removes the entry at a key; the working directory is untouched. -/
def FState.erase (s : FState) (c : List String) : FState :=
  { s with entries := s.entries.filter (fun e => !(e.fst == c)) }

/-- The freshly constructed backend: a root-only namespace with the
working directory at the namespace root (§3, §4.2). -/
def FState.init : FState :=
  { entries := [([], Node.dir 0o755)], cwd := "/" }

/-- The `FileInfo` describing the node at a key: the name is the final
path component, the size is meaningful for regular files, the type bits
reflect the node kind (§3). -/
def infoOf (c : List String) (n : Node) : FileInfo :=
  { name := baseOf c
    size := match n with | Node.file sz _ => sz | _ => 0
    isDir := match n with | Node.dir _ => true | _ => false
    isSymlink := match n with | Node.symlink _ => true | _ => false
    perm := match n with
      | Node.file _ m => m
      | Node.dir m => m
      | Node.symlink _ => 0o777 }

/-- The symlink-chain bound of §4.3's cycle detection ("excessive
chain-length error"). -/
def maxLinkDepth : Nat := 40

/-- Modelled from the spec (§4.1, §4.3): transitively resolves a final
path component through symlink chains to a non-symlink key, failing with
`notFound` on a dangling link and `tooManyLinks` once the chain bound is
exhausted. -/
def resolvePath (s : FState) : Nat → List String → Except FsError (List String)
  | 0, _ => Except.error FsError.tooManyLinks
  | fuel + 1, c =>
    match s.find c with
    | none => Except.error FsError.notFound
    | some (Node.symlink t) => resolvePath s fuel (splitPath t)
    | some (Node.file _ _) => Except.ok c
    | some (Node.dir _) => Except.ok c

/-- Whether the open flags request write access (`O_WRONLY`/`O_RDWR`;
Go's access-mode bits). -/
def wantsWrite (flags : Nat) : Bool := flags % 4 != 0

/-- Whether the open flags include `O_CREATE` (Go's `0x40`). -/
def wantsCreate (flags : Nat) : Bool := flags / 64 % 2 == 1

/-- Modelled from the spec (§4.1 `open`, §3): empty paths are invalid;
opening a directory for writing fails with `isADirectory`; a missing path
without the create flag fails with `notFound`, with it the file is
created. -/
def FState.openFileOp (s : FState) (p : String) (flags : Nat) (perm : Nat) :
    Except FsError (Nat × FState) :=
  if p = "" then Except.error FsError.invalidArgument
  else
    match s.find (splitPath p) with
    | some (Node.dir _) =>
      if wantsWrite flags then Except.error FsError.isADirectory
      else Except.ok (0, s)
    | some _ => Except.ok (0, s)
    | none =>
      if wantsCreate flags then
        Except.ok (0, s.insert (splitPath p) (Node.file 0 perm))
      else Except.error FsError.notFound

/-- Modelled from the spec (§4.1 `mkdir`): creates exactly one directory
level; `alreadyExists` if the path exists, `notFound` if the parent does
not, `notADirectory` if the parent is not a directory. -/
def FState.mkdirOp (s : FState) (p : String) (perm : Nat) : Except FsError FState :=
  if p = "" then Except.error FsError.invalidArgument
  else
    match s.find (splitPath p) with
    | some _ => Except.error FsError.alreadyExists
    | none =>
      match s.find (splitPath p).dropLast with
      | some (Node.dir _) => Except.ok (s.insert (splitPath p) (Node.dir perm))
      | some _ => Except.error FsError.notADirectory
      | none => Except.error FsError.notFound

/-- Modelled from the spec (§4.1 `remove`): deletes a file or an empty
directory; `notFound` if absent, `directoryNotEmpty` for a populated
directory. -/
def FState.removeOp (s : FState) (p : String) : Except FsError FState :=
  if p = "" then Except.error FsError.invalidArgument
  else
    match s.find (splitPath p) with
    | none => Except.error FsError.notFound
    | some (Node.dir _) =>
      if s.entries.any (fun e => !(e.fst == splitPath p) && (splitPath p).isPrefixOf e.fst)
      then Except.error FsError.directoryNotEmpty
      else Except.ok (s.erase (splitPath p))
    | some _ => Except.ok (s.erase (splitPath p))

/-- Modelled from the spec (§4.1 `rename`): moves the node; `notFound` if
the old path is absent (overwrite-on-existing is backend-defined and this
backend overwrites). -/
def FState.renameOp (s : FState) (po pn : String) : Except FsError FState :=
  if po = "" ∨ pn = "" then Except.error FsError.invalidArgument
  else
    match s.find (splitPath po) with
    | none => Except.error FsError.notFound
    | some n => Except.ok ((s.erase (splitPath po)).insert (splitPath pn) n)

/-- Modelled from the spec (§4.1 `stat`, §4.3): resolves the final
component transitively through symlinks, then describes the target. -/
def FState.statOp (s : FState) (p : String) : Except FsError FileInfo :=
  if p = "" then Except.error FsError.invalidArgument
  else
    match resolvePath s maxLinkDepth (splitPath p) with
    | Except.error e => Except.error e
    | Except.ok c =>
      match s.find c with
      | some n => Except.ok (infoOf c n)
      | none => Except.error FsError.notFound

/-- Replaces a node's permission bits. -/
def setPerm (n : Node) (perm : Nat) : Node :=
  match n with
  | Node.file sz _ => Node.file sz perm
  | Node.dir _ => Node.dir perm
  | Node.symlink t => Node.symlink t

/-- Modelled from the spec (§4.1 `chmod`): mutates metadata only;
`notFound` if absent. -/
def FState.chmodOp (s : FState) (p : String) (perm : Nat) : Except FsError FState :=
  if p = "" then Except.error FsError.invalidArgument
  else
    match s.find (splitPath p) with
    | none => Except.error FsError.notFound
    | some n => Except.ok (s.insert (splitPath p) (setPerm n perm))

/-- Modelled from the spec (§4.1 `chtimes`): timestamps are not carried in
this model, so the operation validates the path and otherwise leaves the
state unchanged; `notFound` if absent. -/
def FState.chtimesOp (s : FState) (p : String) (_atime _mtime : Int) :
    Except FsError FState :=
  if p = "" then Except.error FsError.invalidArgument
  else
    match s.find (splitPath p) with
    | none => Except.error FsError.notFound
    | some _ => Except.ok s

/-- Modelled from the spec (§4.1 `chown`): ownership is backend-optional;
this backend validates the path and applies no change; `notFound` if
absent. -/
def FState.chownOp (s : FState) (p : String) (_uid _gid : Int) :
    Except FsError FState :=
  if p = "" then Except.error FsError.invalidArgument
  else
    match s.find (splitPath p) with
    | none => Except.error FsError.notFound
    | some _ => Except.ok s

/-- Modelled from the spec (§4.2 `chdir`): `notFound` if absent,
`notADirectory` if the path is not a directory; on success the working
directory becomes the given path. -/
def FState.chdirOp (s : FState) (p : String) : Except FsError FState :=
  if p = "" then Except.error FsError.invalidArgument
  else
    match s.find (splitPath p) with
    | some (Node.dir _) => Except.ok { s with cwd := p }
    | some _ => Except.error FsError.notADirectory
    | none => Except.error FsError.notFound

/-- Modelled from the spec (§4.2 `getwd`): returns the instance-scoped
working directory. -/
def FState.getwdOp (s : FState) : Except FsError String := Except.ok s.cwd

/-- Modelled from the spec (§4.2 `open`): read-only open, `open` with the
read-only flag. -/
def FState.openROOp (s : FState) (p : String) : Except FsError (Nat × FState) :=
  s.openFileOp p 0 0

/-- Modelled from the spec (§4.2 `create`): `open` with
create+truncate+write flags. -/
def FState.createOp (s : FState) (p : String) : Except FsError (Nat × FState) :=
  if p = "" then Except.error FsError.invalidArgument
  else
    match s.find (splitPath p) with
    | some (Node.dir _) => Except.error FsError.isADirectory
    | some (Node.file _ m) => Except.ok (0, s.insert (splitPath p) (Node.file 0 m))
    | some (Node.symlink _) => Except.ok (0, s)
    | none => Except.ok (0, s.insert (splitPath p) (Node.file 0 0o666))

/-- Helper for `mkdirAll`: walks the components left to right, creating
each missing level. -/
def mkdirAllAux (perm : Nat) : FState → List String → List String → Except FsError FState
  | s, _, [] => Except.ok s
  | s, done, x :: xs =>
    match s.find (done ++ [x]) with
    | some (Node.dir _) => mkdirAllAux perm s (done ++ [x]) xs
    | some _ => Except.error FsError.notADirectory
    | none => mkdirAllAux perm (s.insert (done ++ [x]) (Node.dir perm)) (done ++ [x]) xs

/-- Modelled from the spec (§4.2 `mkdirAll`): creates every missing
ancestor, succeeds as a no-op if the full path already exists as a
directory, fails with `notADirectory` if an existing component is not a
directory. -/
def FState.mkdirAllOp (s : FState) (p : String) (perm : Nat) : Except FsError FState :=
  if p = "" then Except.error FsError.invalidArgument
  else mkdirAllAux perm s [] (splitPath p)

/-- Modelled from the spec (§4.2 `removeAll`): recursively deletes the
subtree at the path; succeeds as a no-op if the path does not exist. -/
def FState.removeAllOp (s : FState) (p : String) : Except FsError FState :=
  if p = "" then Except.error FsError.invalidArgument
  else
    Except.ok { s with entries := s.entries.filter (fun e => !((splitPath p).isPrefixOf e.fst)) }

/-- Modelled from the spec (§4.2 `truncate`): sets the file length after
resolving symlinks; `notFound` if absent, `isADirectory` for a
directory. -/
def FState.truncateOp (s : FState) (p : String) (size : Int) : Except FsError FState :=
  if p = "" then Except.error FsError.invalidArgument
  else
    match resolvePath s maxLinkDepth (splitPath p) with
    | Except.error e => Except.error e
    | Except.ok c =>
      match s.find c with
      | some (Node.file _ m) => Except.ok (s.insert c (Node.file size m))
      | some (Node.dir _) => Except.error FsError.isADirectory
      | _ => Except.error FsError.notFound

/-- Modelled from the spec (§4.3 `lstat`): never follows the final
component; describes the symlink itself with the symlink type bit set. -/
def FState.lstatOp (s : FState) (p : String) : Except FsError FileInfo :=
  if p = "" then Except.error FsError.invalidArgument
  else
    match s.find (splitPath p) with
    | none => Except.error FsError.notFound
    | some n => Except.ok (infoOf (splitPath p) n)

/-- Modelled from the spec (§4.3 `lchown`): chown without following a
final symlink; this backend validates the path and applies no change. -/
def FState.lchownOp (s : FState) (p : String) (_uid _gid : Int) :
    Except FsError FState :=
  if p = "" then Except.error FsError.invalidArgument
  else
    match s.find (splitPath p) with
    | none => Except.error FsError.notFound
    | some _ => Except.ok s

/-- Modelled from the spec (§4.3 `readlink`): `notFound` if absent,
`notASymlink` for a non-symlink node, else the recorded target. -/
def FState.readlinkOp (s : FState) (p : String) : Except FsError String :=
  if p = "" then Except.error FsError.invalidArgument
  else
    match s.find (splitPath p) with
    | none => Except.error FsError.notFound
    | some (Node.symlink t) => Except.ok t
    | some _ => Except.error FsError.notASymlink

/-- Modelled from the spec (§4.3 `symlink`): creates a new symlink at the
link path pointing at the target (which need not exist); `alreadyExists`
if the link path exists. -/
def FState.symlinkOp (s : FState) (target link : String) : Except FsError FState :=
  if target = "" ∨ link = "" then Except.error FsError.invalidArgument
  else
    match s.find (splitPath link) with
    | some _ => Except.error FsError.alreadyExists
    | none => Except.ok (s.insert (splitPath link) (Node.symlink target))

/-- Modelled from the spec: a backend satisfying the full
`SymlinkFileSystem` contract, assembled from the operations above. -/
def memBackend : SymlinkOps FState where
  openFile := FState.openFileOp
  mkdir := FState.mkdirOp
  remove := FState.removeOp
  rename := FState.renameOp
  stat := FState.statOp
  chmod := FState.chmodOp
  chtimes := FState.chtimesOp
  chown := FState.chownOp
  separator := '/'
  listSeparator := ':'
  chdir := FState.chdirOp
  getwd := FState.getwdOp
  tempDir := "/tmp"
  openRO := FState.openROOp
  create := FState.createOp
  mkdirAll := FState.mkdirAllOp
  removeAll := FState.removeAllOp
  truncate := FState.truncateOp
  lstat := FState.lstatOp
  lchown := FState.lchownOp
  readlink := FState.readlinkOp
  symlink := FState.symlinkOp

/-! ## Helper lemmas -/

/-- A `*ptfs.Filer` wrapper is a distinct value from what it wraps. -/
theorem ptFiler_ne (v : FSValue) : FSValue.ptFiler v ≠ v := by
  intro h
  have hs := congrArg sizeOf h
  simp only [FSValue.ptFiler.sizeOf_spec] at hs
  omega

/-- A `*ptfs.FileSystem` wrapper is a distinct value from what it wraps. -/
theorem ptFileSystem_ne (v : FSValue) : FSValue.ptFileSystem v ≠ v := by
  intro h
  have hs := congrArg sizeOf h
  simp only [FSValue.ptFileSystem.sizeOf_spec] at hs
  omega

/-- A `*ptfs.SymlinkFileSystem` wrapper is a distinct value from what it
wraps. -/
theorem ptSymlinkFS_ne (v : FSValue) : FSValue.ptSymlinkFS v ≠ v := by
  intro h
  have hs := congrArg sizeOf h
  simp only [FSValue.ptSymlinkFS.sizeOf_spec] at hs
  omega

/-- The update `insert` never touches the working directory. -/
theorem insert_cwd (s : FState) (c : List String) (n : Node) :
    (s.insert c n).cwd = s.cwd := rfl

/-- The update `erase` never touches the working directory. -/
theorem erase_cwd (s : FState) (c : List String) :
    (s.erase c).cwd = s.cwd := rfl

/-- The operation `openFileOp` never changes the working directory. -/
theorem openFileOp_cwd : ∀ (s : FState) (p : String) (flags perm : Nat) (r : Nat × FState),
    FState.openFileOp s p flags perm = Except.ok r → r.2.cwd = s.cwd := by
  intro s p flags perm r h
  unfold FState.openFileOp at h
  repeat' split at h
  all_goals simp_all [insert_cwd]
  all_goals subst h
  all_goals simp [insert_cwd]

/-- The operation `mkdirOp` never changes the working directory. -/
theorem mkdirOp_cwd : ∀ (s : FState) (p : String) (perm : Nat) (s' : FState),
    FState.mkdirOp s p perm = Except.ok s' → s'.cwd = s.cwd := by
  intro s p perm s' h
  unfold FState.mkdirOp at h
  repeat' split at h
  all_goals simp_all [insert_cwd]
  all_goals subst h
  all_goals simp [insert_cwd]

/-- The operation `removeOp` never changes the working directory. -/
theorem removeOp_cwd : ∀ (s : FState) (p : String) (s' : FState),
    FState.removeOp s p = Except.ok s' → s'.cwd = s.cwd := by
  intro s p s' h
  unfold FState.removeOp at h
  repeat' split at h
  all_goals first
    | exact Except.noConfusion h
    | (cases h; rfl)

/-- The operation `renameOp` never changes the working directory. -/
theorem renameOp_cwd : ∀ (s : FState) (po pn : String) (s' : FState),
    FState.renameOp s po pn = Except.ok s' → s'.cwd = s.cwd := by
  intro s po pn s' h
  unfold FState.renameOp at h
  repeat' split at h
  all_goals simp_all [insert_cwd, erase_cwd]
  all_goals subst h
  all_goals simp [insert_cwd, erase_cwd]

/-- The operation `chmodOp` never changes the working directory. -/
theorem chmodOp_cwd : ∀ (s : FState) (p : String) (perm : Nat) (s' : FState),
    FState.chmodOp s p perm = Except.ok s' → s'.cwd = s.cwd := by
  intro s p perm s' h
  unfold FState.chmodOp at h
  repeat' split at h
  all_goals simp_all [insert_cwd]
  all_goals subst h
  all_goals simp [insert_cwd]

/-- The operation `chtimesOp` never changes the working directory. -/
theorem chtimesOp_cwd : ∀ (s : FState) (p : String) (atime mtime : Int) (s' : FState),
    FState.chtimesOp s p atime mtime = Except.ok s' → s'.cwd = s.cwd := by
  intro s p atime mtime s' h
  unfold FState.chtimesOp at h
  repeat' split at h
  all_goals simp_all

/-- The operation `chownOp` never changes the working directory. -/
theorem chownOp_cwd : ∀ (s : FState) (p : String) (uid gid : Int) (s' : FState),
    FState.chownOp s p uid gid = Except.ok s' → s'.cwd = s.cwd := by
  intro s p uid gid s' h
  unfold FState.chownOp at h
  repeat' split at h
  all_goals simp_all

/-- The operation `createOp` never changes the working directory. -/
theorem createOp_cwd : ∀ (s : FState) (p : String) (r : Nat × FState),
    FState.createOp s p = Except.ok r → r.2.cwd = s.cwd := by
  intro s p r h
  unfold FState.createOp at h
  repeat' split at h
  all_goals simp_all [insert_cwd]
  all_goals subst h
  all_goals simp [insert_cwd]

/-- The helper `mkdirAllAux` never changes the working directory. -/
theorem mkdirAllAux_cwd : ∀ (rest : List String) (perm : Nat) (s : FState)
    (done : List String) (s' : FState),
    mkdirAllAux perm s done rest = Except.ok s' → s'.cwd = s.cwd := by
  intro rest
  induction rest with
  | nil =>
    intro perm s done s' h
    unfold mkdirAllAux at h
    simp only [Except.ok.injEq] at h
    rw [← h]
  | cons x xs ih =>
    intro perm s done s' h
    unfold mkdirAllAux at h
    split at h
    · exact ih perm s (done ++ [x]) s' h
    · simp at h
    · rw [ih perm (s.insert (done ++ [x]) (Node.dir perm)) (done ++ [x]) s' h, insert_cwd]

/-- The operation `mkdirAllOp` never changes the working directory. -/
theorem mkdirAllOp_cwd : ∀ (s : FState) (p : String) (perm : Nat) (s' : FState),
    FState.mkdirAllOp s p perm = Except.ok s' → s'.cwd = s.cwd := by
  intro s p perm s' h
  unfold FState.mkdirAllOp at h
  split at h
  · simp at h
  · exact mkdirAllAux_cwd (splitPath p) perm s [] s' h

/-- The operation `removeAllOp` never changes the working directory. -/
theorem removeAllOp_cwd : ∀ (s : FState) (p : String) (s' : FState),
    FState.removeAllOp s p = Except.ok s' → s'.cwd = s.cwd := by
  intro s p s' h
  unfold FState.removeAllOp at h
  split at h
  · simp at h
  · simp only [Except.ok.injEq] at h
    rw [← h]

/-- The operation `truncateOp` never changes the working directory. -/
theorem truncateOp_cwd : ∀ (s : FState) (p : String) (sz : Int) (s' : FState),
    FState.truncateOp s p sz = Except.ok s' → s'.cwd = s.cwd := by
  intro s p sz s' h
  unfold FState.truncateOp at h
  repeat' split at h
  all_goals simp_all [insert_cwd]
  all_goals subst h
  all_goals simp [insert_cwd]

/-- The operation `lchownOp` never changes the working directory. -/
theorem lchownOp_cwd : ∀ (s : FState) (p : String) (uid gid : Int) (s' : FState),
    FState.lchownOp s p uid gid = Except.ok s' → s'.cwd = s.cwd := by
  intro s p uid gid s' h
  unfold FState.lchownOp at h
  repeat' split at h
  all_goals simp_all

/-- The operation `symlinkOp` never changes the working directory. -/
theorem symlinkOp_cwd : ∀ (s : FState) (target link : String) (s' : FState),
    FState.symlinkOp s target link = Except.ok s' → s'.cwd = s.cwd := by
  intro s target link s' h
  unfold FState.symlinkOp at h
  repeat' split at h
  all_goals simp_all [insert_cwd]
  all_goals subst h
  all_goals simp [insert_cwd]

/-- A successful `chdirOp` sets the working directory to its argument. -/
theorem chdirOp_sets : ∀ (s : FState) (p : String) (s' : FState),
    FState.chdirOp s p = Except.ok s' → s'.cwd = p := by
  intro s p s' h
  unfold FState.chdirOp at h
  repeat' split at h
  all_goals simp_all
  all_goals rw [← h]

/-- A key returned by successful symlink resolution holds a non-symlink
node. -/
theorem resolvePath_ok_not_symlink (s : FState) : ∀ (fuel : Nat) (c c' : List String),
    resolvePath s fuel c = Except.ok c' → ∀ t, s.find c' ≠ some (Node.symlink t) := by
  intro fuel
  induction fuel with
  | zero =>
    intro c c' h t
    exact Except.noConfusion h
  | succ n ih =>
    intro c c' h t
    unfold resolvePath at h
    split at h
    · exact Except.noConfusion h
    · exact ih _ c' h t
    · cases h
      rename_i heq
      rw [heq]
      simp
    · cases h
      rename_i heq
      rw [heq]
      simp

/-- Symlink resolution fails only with `notFound` (dangling chain) or
`tooManyLinks` (chain bound exhausted). -/
theorem resolvePath_error_kinds (s : FState) : ∀ (fuel : Nat) (c : List String) (e : FsError),
    resolvePath s fuel c = Except.error e → e = FsError.notFound ∨ e = FsError.tooManyLinks := by
  intro fuel
  induction fuel with
  | zero =>
    intro c e h
    cases h
    exact Or.inr rfl
  | succ n ih =>
    intro c e h
    unfold resolvePath at h
    split at h
    · cases h
      exact Or.inl rfl
    · exact ih _ e h
    · exact Except.noConfusion h
    · exact Except.noConfusion h

/-! ## Claim theorems -/

/-- C1: for every capability surface, every backend implementing it, every
operation of the surface and every argument tuple, the operation on the
wrapper returns a result and error identical in value to the operation on
the backend; in particular every backend error propagates unchanged. -/
theorem wrap_transparency :
    ∀ (σ : Type) (bf : FilerOps σ) (bfs : FileSystemOps σ) (bs : SymlinkOps σ)
      (s : σ) (p q : String) (flags perm : Nat) (uid gid atime mtime sz : Int),
    (wrapFilerOps bf).openFile s p flags perm = bf.openFile s p flags perm ∧
    (wrapFilerOps bf).mkdir s p perm = bf.mkdir s p perm ∧
    (wrapFilerOps bf).remove s p = bf.remove s p ∧
    (wrapFilerOps bf).rename s p q = bf.rename s p q ∧
    (wrapFilerOps bf).stat s p = bf.stat s p ∧
    (wrapFilerOps bf).chmod s p perm = bf.chmod s p perm ∧
    (wrapFilerOps bf).chtimes s p atime mtime = bf.chtimes s p atime mtime ∧
    (wrapFilerOps bf).chown s p uid gid = bf.chown s p uid gid ∧
    (wrapFileSystemOps bfs).openFile s p flags perm = bfs.openFile s p flags perm ∧
    (wrapFileSystemOps bfs).mkdir s p perm = bfs.mkdir s p perm ∧
    (wrapFileSystemOps bfs).remove s p = bfs.remove s p ∧
    (wrapFileSystemOps bfs).rename s p q = bfs.rename s p q ∧
    (wrapFileSystemOps bfs).stat s p = bfs.stat s p ∧
    (wrapFileSystemOps bfs).chmod s p perm = bfs.chmod s p perm ∧
    (wrapFileSystemOps bfs).chtimes s p atime mtime = bfs.chtimes s p atime mtime ∧
    (wrapFileSystemOps bfs).chown s p uid gid = bfs.chown s p uid gid ∧
    (wrapFileSystemOps bfs).separator = bfs.separator ∧
    (wrapFileSystemOps bfs).listSeparator = bfs.listSeparator ∧
    (wrapFileSystemOps bfs).chdir s p = bfs.chdir s p ∧
    (wrapFileSystemOps bfs).getwd s = bfs.getwd s ∧
    (wrapFileSystemOps bfs).tempDir = bfs.tempDir ∧
    (wrapFileSystemOps bfs).openRO s p = bfs.openRO s p ∧
    (wrapFileSystemOps bfs).create s p = bfs.create s p ∧
    (wrapFileSystemOps bfs).mkdirAll s p perm = bfs.mkdirAll s p perm ∧
    (wrapFileSystemOps bfs).removeAll s p = bfs.removeAll s p ∧
    (wrapFileSystemOps bfs).truncate s p sz = bfs.truncate s p sz ∧
    (wrapSymlinkOps bs).openFile s p flags perm = bs.openFile s p flags perm ∧
    (wrapSymlinkOps bs).mkdir s p perm = bs.mkdir s p perm ∧
    (wrapSymlinkOps bs).remove s p = bs.remove s p ∧
    (wrapSymlinkOps bs).rename s p q = bs.rename s p q ∧
    (wrapSymlinkOps bs).stat s p = bs.stat s p ∧
    (wrapSymlinkOps bs).chmod s p perm = bs.chmod s p perm ∧
    (wrapSymlinkOps bs).chtimes s p atime mtime = bs.chtimes s p atime mtime ∧
    (wrapSymlinkOps bs).chown s p uid gid = bs.chown s p uid gid ∧
    (wrapSymlinkOps bs).separator = bs.separator ∧
    (wrapSymlinkOps bs).listSeparator = bs.listSeparator ∧
    (wrapSymlinkOps bs).chdir s p = bs.chdir s p ∧
    (wrapSymlinkOps bs).getwd s = bs.getwd s ∧
    (wrapSymlinkOps bs).tempDir = bs.tempDir ∧
    (wrapSymlinkOps bs).openRO s p = bs.openRO s p ∧
    (wrapSymlinkOps bs).create s p = bs.create s p ∧
    (wrapSymlinkOps bs).mkdirAll s p perm = bs.mkdirAll s p perm ∧
    (wrapSymlinkOps bs).removeAll s p = bs.removeAll s p ∧
    (wrapSymlinkOps bs).truncate s p sz = bs.truncate s p sz ∧
    (wrapSymlinkOps bs).lstat s p = bs.lstat s p ∧
    (wrapSymlinkOps bs).lchown s p uid gid = bs.lchown s p uid gid ∧
    (wrapSymlinkOps bs).readlink s p = bs.readlink s p ∧
    (wrapSymlinkOps bs).symlink s p q = bs.symlink s p q := by
  intro σ bf bfs bs s p q flags perm uid gid atime mtime sz
  exact ⟨rfl, rfl, rfl, rfl, rfl, rfl, rfl, rfl, rfl, rfl, rfl, rfl, rfl, rfl, rfl, rfl,
    rfl, rfl, rfl, rfl, rfl, rfl, rfl, rfl, rfl, rfl, rfl, rfl, rfl, rfl, rfl, rfl,
    rfl, rfl, rfl, rfl, rfl, rfl, rfl, rfl, rfl, rfl, rfl, rfl, rfl, rfl, rfl, rfl⟩

/-- C2: for every backend and every surface, unwrapping the wrapper
constructed around the backend returns exactly the original backend
reference. -/
theorem unwrap_wrap_ident : ∀ B : FSValue,
    Except.map UnwrapFiler (NewFiler (some B)) = Except.ok B ∧
    Except.map UnwrapFS (NewFS (some B)) = Except.ok B ∧
    Except.map UnwrapSymlinkFS (NewSymlinkFS (some B)) = Except.ok B := by
  intro B
  exact ⟨rfl, rfl, rfl⟩

/-- C3: the unwrap functions return any value that is not an instance of
their surface's wrapper type unchanged. -/
theorem unwrap_non_wrapper_ident : ∀ v : FSValue,
    (isPtFiler v = false → UnwrapFiler v = v) ∧
    (isPtFileSystem v = false → UnwrapFS v = v) ∧
    (isPtSymlinkFS v = false → UnwrapSymlinkFS v = v) := by
  intro v
  cases v <;>
    simp [isPtFiler, isPtFileSystem, isPtSymlinkFS, UnwrapFiler, UnwrapFS, UnwrapSymlinkFS]

/-- Witness for C3 at the non-wrapper value `backend 0`. -/
theorem unwrap_non_wrapper_ident_witness :
    UnwrapFiler (FSValue.backend 0) = FSValue.backend 0 ∧
    UnwrapFS (FSValue.backend 0) = FSValue.backend 0 ∧
    UnwrapSymlinkFS (FSValue.backend 0) = FSValue.backend 0 :=
  ⟨(unwrap_non_wrapper_ident (FSValue.backend 0)).1 (by decide),
   (unwrap_non_wrapper_ident (FSValue.backend 0)).2.1 (by decide),
   (unwrap_non_wrapper_ident (FSValue.backend 0)).2.2 (by decide)⟩

/-- C4: each unwrap call peels exactly one wrapper layer: on a doubly
wrapped backend the first unwrap returns the inner wrapper (not the
backend), a second unwrap returns the backend, and one layer is peeled per
call for arbitrarily many layers. -/
theorem unwrap_peels_one_layer : ∀ (B : FSValue) (n : Nat),
    UnwrapSymlinkFS (FSValue.ptSymlinkFS (FSValue.ptSymlinkFS B)) = FSValue.ptSymlinkFS B ∧
    FSValue.ptSymlinkFS B ≠ B ∧
    UnwrapSymlinkFS (FSValue.ptSymlinkFS B) = B ∧
    UnwrapSymlinkFS (wrapSymlinkN (n + 1) B) = wrapSymlinkN n B := by
  intro B n
  exact ⟨rfl, ptSymlinkFS_ne B, rfl, rfl⟩

/-- Witness for C4 at the backend value `backend 0`, two layers. -/
theorem unwrap_peels_one_layer_witness :
    UnwrapSymlinkFS (FSValue.ptSymlinkFS (FSValue.ptSymlinkFS (FSValue.backend 0))) =
      FSValue.ptSymlinkFS (FSValue.backend 0) ∧
    UnwrapSymlinkFS (FSValue.ptSymlinkFS (FSValue.backend 0)) = FSValue.backend 0 :=
  ⟨(unwrap_peels_one_layer (FSValue.backend 0) 0).1,
   (unwrap_peels_one_layer (FSValue.backend 0) 0).2.2.1⟩

/-- C5: each construction function fails exactly when the supplied backend
reference is null, and succeeds on every non-null backend regardless of
its content. -/
theorem construct_fails_iff_nil : ∀ ob : Option FSValue,
    ((NewFiler ob).isOk = true ↔ ob ≠ none) ∧
    ((NewFS ob).isOk = true ↔ ob ≠ none) ∧
    ((NewSymlinkFS ob).isOk = true ↔ ob ≠ none) ∧
    (∀ B, ob = some B →
      NewFiler ob = Except.ok (FSValue.ptFiler B) ∧
      NewFS ob = Except.ok (FSValue.ptFileSystem B) ∧
      NewSymlinkFS ob = Except.ok (FSValue.ptSymlinkFS B)) := by
  intro ob
  cases ob <;> simp [NewFiler, NewFS, NewSymlinkFS, Except.isOk, Except.toBool]

/-- Witness for C5 at the backend value `backend 0` and at null. -/
theorem construct_fails_iff_nil_witness :
    (NewFiler (some (FSValue.backend 0))).isOk = true ∧
    NewSymlinkFS (some (FSValue.backend 0)) =
      Except.ok (FSValue.ptSymlinkFS (FSValue.backend 0)) :=
  ⟨(construct_fails_iff_nil (some (FSValue.backend 0))).1.mpr (by decide),
   ((construct_fails_iff_nil (some (FSValue.backend 0))).2.2.2 (FSValue.backend 0) rfl).2.2⟩

/-- C6: a wrapper is never identity-equal to its backend; a wrapped value
cannot be type-asserted to the backend's concrete type; after exactly one
unwrap of a singly wrapped value the assertion succeeds. -/
theorem wrapper_identity_distinct : ∀ (v : FSValue) (b : Nat),
    FSValue.ptFiler v ≠ v ∧
    FSValue.ptFileSystem v ≠ v ∧
    FSValue.ptSymlinkFS v ≠ v ∧
    isBackend (FSValue.ptFiler v) = false ∧
    isBackend (FSValue.ptFileSystem v) = false ∧
    isBackend (FSValue.ptSymlinkFS v) = false ∧
    isBackend (UnwrapFiler (FSValue.ptFiler (FSValue.backend b))) = true ∧
    isBackend (UnwrapFS (FSValue.ptFileSystem (FSValue.backend b))) = true ∧
    isBackend (UnwrapSymlinkFS (FSValue.ptSymlinkFS (FSValue.backend b))) = true := by
  intro v b
  exact ⟨ptFiler_ne v, ptFileSystem_ne v, ptSymlinkFS_ne v, rfl, rfl, rfl, rfl, rfl, rfl⟩

/-- Witness for C6 at the backend value `backend 0`. -/
theorem wrapper_identity_distinct_witness :
    isBackend (FSValue.ptSymlinkFS (FSValue.backend 0)) = false ∧
    isBackend (UnwrapSymlinkFS (FSValue.ptSymlinkFS (FSValue.backend 0))) = true :=
  ⟨(wrapper_identity_distinct (FSValue.backend 0) 0).2.2.2.2.2.1,
   (wrapper_identity_distinct (FSValue.backend 0) 0).2.2.2.2.2.2.2.2⟩

/-- C10: each unwrap function recognizes only its own surface's wrapper
type: applied to a wrapper of a different surface it returns the value
unchanged without peeling the layer, while it does peel its own surface's
wrapper. -/
theorem unwrap_surface_specific : ∀ v : FSValue,
    UnwrapFS (FSValue.ptSymlinkFS v) = FSValue.ptSymlinkFS v ∧
    UnwrapFS (FSValue.ptFiler v) = FSValue.ptFiler v ∧
    UnwrapFiler (FSValue.ptFileSystem v) = FSValue.ptFileSystem v ∧
    UnwrapFiler (FSValue.ptSymlinkFS v) = FSValue.ptSymlinkFS v ∧
    UnwrapSymlinkFS (FSValue.ptFileSystem v) = FSValue.ptFileSystem v ∧
    UnwrapSymlinkFS (FSValue.ptFiler v) = FSValue.ptFiler v ∧
    UnwrapFS (FSValue.ptFileSystem v) = v ∧
    UnwrapSymlinkFS (FSValue.ptSymlinkFS v) = v ∧
    UnwrapFiler (FSValue.ptFiler v) = v := by
  intro v
  exact ⟨rfl, rfl, rfl, rfl, rfl, rfl, rfl, rfl, rfl⟩

/-- C7: on a freshly constructed wrapped `FileSystem` (no chdir yet
performed), `getwd` succeeds and returns the namespace root `"/"`; the
working directory is mutated only by an explicit `chdir`: every other
state-changing operation preserves it, and a successful `chdir` sets it. -/
theorem getwd_init_root :
    (wrapSymlinkOps memBackend).getwd FState.init = Except.ok "/" ∧
    (∀ s p s', (wrapSymlinkOps memBackend).chdir s p = Except.ok s' → s'.cwd = p) ∧
    (∀ s p flags perm r,
      (wrapSymlinkOps memBackend).openFile s p flags perm = Except.ok r → r.2.cwd = s.cwd) ∧
    (∀ s p perm s', (wrapSymlinkOps memBackend).mkdir s p perm = Except.ok s' → s'.cwd = s.cwd) ∧
    (∀ s p s', (wrapSymlinkOps memBackend).remove s p = Except.ok s' → s'.cwd = s.cwd) ∧
    (∀ s po pn s', (wrapSymlinkOps memBackend).rename s po pn = Except.ok s' → s'.cwd = s.cwd) ∧
    (∀ s p perm s', (wrapSymlinkOps memBackend).chmod s p perm = Except.ok s' → s'.cwd = s.cwd) ∧
    (∀ s p a m s', (wrapSymlinkOps memBackend).chtimes s p a m = Except.ok s' → s'.cwd = s.cwd) ∧
    (∀ s p u g s', (wrapSymlinkOps memBackend).chown s p u g = Except.ok s' → s'.cwd = s.cwd) ∧
    (∀ s p r, (wrapSymlinkOps memBackend).openRO s p = Except.ok r → r.2.cwd = s.cwd) ∧
    (∀ s p r, (wrapSymlinkOps memBackend).create s p = Except.ok r → r.2.cwd = s.cwd) ∧
    (∀ s p perm s',
      (wrapSymlinkOps memBackend).mkdirAll s p perm = Except.ok s' → s'.cwd = s.cwd) ∧
    (∀ s p s', (wrapSymlinkOps memBackend).removeAll s p = Except.ok s' → s'.cwd = s.cwd) ∧
    (∀ s p sz s', (wrapSymlinkOps memBackend).truncate s p sz = Except.ok s' → s'.cwd = s.cwd) ∧
    (∀ s p u g s', (wrapSymlinkOps memBackend).lchown s p u g = Except.ok s' → s'.cwd = s.cwd) ∧
    (∀ s t l s', (wrapSymlinkOps memBackend).symlink s t l = Except.ok s' → s'.cwd = s.cwd) := by
  refine ⟨rfl, chdirOp_sets, openFileOp_cwd, mkdirOp_cwd, removeOp_cwd, renameOp_cwd,
    chmodOp_cwd, chtimesOp_cwd, chownOp_cwd, ?_, createOp_cwd, mkdirAllOp_cwd,
    removeAllOp_cwd, truncateOp_cwd, lchownOp_cwd, symlinkOp_cwd⟩
  intro s p r h
  exact openFileOp_cwd s p 0 0 r h

/-- Witness for C7: `getwd` on the fresh state, and a successful `chdir`
to a concrete directory. -/
theorem getwd_init_root_witness :
    (wrapSymlinkOps memBackend).getwd FState.init = Except.ok "/" ∧
    (FState.mk [(["d"], Node.dir 7), ([], Node.dir 0o755)] "/d").cwd = "/d" :=
  ⟨getwd_init_root.1,
   getwd_init_root.2.1 (FState.mk [(["d"], Node.dir 7), ([], Node.dir 0o755)] "/") "/d"
     (FState.mk [(["d"], Node.dir 7), ([], Node.dir 0o755)] "/d") rfl⟩

/-- C8: invoking any path-taking operation through the wrapper with the
empty string as the path argument fails with `invalidArgument`, from every
backend state and for every value of the remaining arguments. -/
theorem empty_path_invalid :
    ∀ (s : FState) (q : String) (flags perm : Nat) (uid gid atime mtime sz : Int),
    (wrapSymlinkOps memBackend).openFile s "" flags perm = Except.error FsError.invalidArgument ∧
    (wrapSymlinkOps memBackend).mkdir s "" perm = Except.error FsError.invalidArgument ∧
    (wrapSymlinkOps memBackend).remove s "" = Except.error FsError.invalidArgument ∧
    (wrapSymlinkOps memBackend).rename s "" q = Except.error FsError.invalidArgument ∧
    (wrapSymlinkOps memBackend).rename s q "" = Except.error FsError.invalidArgument ∧
    (wrapSymlinkOps memBackend).stat s "" = Except.error FsError.invalidArgument ∧
    (wrapSymlinkOps memBackend).chmod s "" perm = Except.error FsError.invalidArgument ∧
    (wrapSymlinkOps memBackend).chtimes s "" atime mtime = Except.error FsError.invalidArgument ∧
    (wrapSymlinkOps memBackend).chown s "" uid gid = Except.error FsError.invalidArgument ∧
    (wrapSymlinkOps memBackend).chdir s "" = Except.error FsError.invalidArgument ∧
    (wrapSymlinkOps memBackend).openRO s "" = Except.error FsError.invalidArgument ∧
    (wrapSymlinkOps memBackend).create s "" = Except.error FsError.invalidArgument ∧
    (wrapSymlinkOps memBackend).mkdirAll s "" perm = Except.error FsError.invalidArgument ∧
    (wrapSymlinkOps memBackend).removeAll s "" = Except.error FsError.invalidArgument ∧
    (wrapSymlinkOps memBackend).truncate s "" sz = Except.error FsError.invalidArgument ∧
    (wrapSymlinkOps memBackend).lstat s "" = Except.error FsError.invalidArgument ∧
    (wrapSymlinkOps memBackend).lchown s "" uid gid = Except.error FsError.invalidArgument ∧
    (wrapSymlinkOps memBackend).readlink s "" = Except.error FsError.invalidArgument ∧
    (wrapSymlinkOps memBackend).symlink s "" q = Except.error FsError.invalidArgument ∧
    (wrapSymlinkOps memBackend).symlink s q "" = Except.error FsError.invalidArgument := by
  intro s q flags perm uid gid atime mtime sz
  refine ⟨rfl, rfl, rfl, ?_, ?_, rfl, rfl, rfl, rfl, rfl, rfl, rfl, rfl, rfl, rfl,
    rfl, rfl, rfl, ?_, ?_⟩ <;>
    simp [wrapSymlinkOps, memBackend, FState.renameOp, FState.symlinkOp]

/-- C9: on a path whose final component is a symlink, `stat` through the
wrapper transitively follows the chain: any success describes a
non-symlink node (no symlink bit), any failure is `notFound` (dangling)
or the chain-length error (cycle), and when resolution reaches a target
the target's `FileInfo` is returned; `lstat` on the same path never
follows the final component and returns the symlink's own `FileInfo` with
the symlink type bit set. -/
theorem stat_follows_lstat_not : ∀ (s : FState) (p t : String),
    p ≠ "" →
    s.find (splitPath p) = some (Node.symlink t) →
    (∀ info, (wrapSymlinkOps memBackend).stat s p = Except.ok info → info.isSymlink = false) ∧
    (∀ e, (wrapSymlinkOps memBackend).stat s p = Except.error e →
      e = FsError.notFound ∨ e = FsError.tooManyLinks) ∧
    (∀ c n, resolvePath s maxLinkDepth (splitPath p) = Except.ok c → s.find c = some n →
      (wrapSymlinkOps memBackend).stat s p = Except.ok (infoOf c n)) ∧
    (wrapSymlinkOps memBackend).lstat s p =
      Except.ok (infoOf (splitPath p) (Node.symlink t)) ∧
    (infoOf (splitPath p) (Node.symlink t)).isSymlink = true := by
  intro s p t hp hfind
  refine ⟨?_, ?_, ?_, ?_, rfl⟩
  · intro info h
    replace h : FState.statOp s p = Except.ok info := h
    unfold FState.statOp at h
    rw [if_neg hp] at h
    split at h
    · exact Except.noConfusion h
    · rename_i c hres
      split at h
      · rename_i n heq
        cases h
        cases n with
        | file sz m => rfl
        | dir m => rfl
        | symlink t' =>
          exact absurd heq (resolvePath_ok_not_symlink s maxLinkDepth (splitPath p) c hres t')
      · exact Except.noConfusion h
  · intro e h
    replace h : FState.statOp s p = Except.error e := h
    unfold FState.statOp at h
    rw [if_neg hp] at h
    split at h
    · rename_i hres
      cases h
      exact resolvePath_error_kinds s maxLinkDepth (splitPath p) _ hres
    · split at h
      · exact Except.noConfusion h
      · cases h
        exact Or.inl rfl
  · intro c n hres hfc
    show FState.statOp s p = Except.ok (infoOf c n)
    simp only [FState.statOp, if_neg hp, hres, hfc]
  · show FState.lstatOp s p = Except.ok (infoOf (splitPath p) (Node.symlink t))
    unfold FState.lstatOp
    rw [if_neg hp, hfind]

/-- Witness for C9: a regular file `/a.txt` of size 2 and the symlink
`/b.txt -> /a.txt`; `stat "/b.txt"` follows the link and returns the
file's info, `lstat "/b.txt"` returns the symlink-typed entry. -/
theorem stat_follows_lstat_not_witness :
    (wrapSymlinkOps memBackend).stat
      (FState.mk [([], Node.dir 0o755), (["a.txt"], Node.file 2 0o644),
        (["b.txt"], Node.symlink "/a.txt")] "/") "/b.txt" =
      Except.ok (infoOf ["a.txt"] (Node.file 2 0o644)) ∧
    (wrapSymlinkOps memBackend).lstat
      (FState.mk [([], Node.dir 0o755), (["a.txt"], Node.file 2 0o644),
        (["b.txt"], Node.symlink "/a.txt")] "/") "/b.txt" =
      Except.ok (infoOf (splitPath "/b.txt") (Node.symlink "/a.txt")) ∧
    (infoOf (splitPath "/b.txt") (Node.symlink "/a.txt")).isSymlink = true := by
  have h := stat_follows_lstat_not
    (FState.mk [([], Node.dir 0o755), (["a.txt"], Node.file 2 0o644),
      (["b.txt"], Node.symlink "/a.txt")] "/") "/b.txt" "/a.txt"
    (by decide) (by decide)
  exact ⟨h.2.2.1 ["a.txt"] (Node.file 2 0o644) rfl rfl, h.2.2.2.1, h.2.2.2.2⟩

end Ptfs
